import Mathlib

/-!
Verification of the `go-qrgen-cli` specification against its source
(`main.go`).  Go strings are embedded as `List Char`, fallible Go functions
as `Except GoError`, and file-system interaction as explicit oracle
parameters.  Components that live only in the external QR library are
modelled from the specification, as marked in their doc comments.
-/

namespace QRGen

/-- Go strings, embedded as lists of characters. -/
abbrev Str := List Char

/-- Convenience conversion from Lean string literals. -/
def str (s : String) : Str := s.toList

/-- Error kinds of the program, following §7 of the design document.
`sizeOutOfRange` is the caller-side size-policy rejection of `main`
(main.go:69-72), `ioError` stands for file-system failures, and
`cancelled` for the declined overwrite prompt in `generateQRCode`. -/
inductive GoError where
  | invalidInput
  | payloadTooLarge
  | sizeTooSmall
  | rasterError
  | sizeOutOfRange
  | ioError
  | cancelled
deriving DecidableEq

/-- Embeds Go `strings.Split(s, sep)` for a single-character separator:
splits at every occurrence of `c`; the result always has one more
element than the number of occurrences of `c`. -/
def splitOnChar (c : Char) : Str → List Str
  | [] => [[]]
  | x :: xs =>
    match splitOnChar c xs with
    | [] => if x = c then [[], []] else [[x]]
    | r :: rs => if x = c then [] :: r :: rs else (x :: r) :: rs

instance {ε α : Type} [DecidableEq ε] [DecidableEq α] : DecidableEq (Except ε α) :=
  fun a b =>
  match a, b with
  | .ok x, .ok y =>
    if h : x = y then .isTrue (by rw [h])
    else .isFalse (fun hh => h (Except.ok.inj hh))
  | .error x, .error y =>
    if h : x = y then .isTrue (by rw [h])
    else .isFalse (fun hh => h (Except.error.inj hh))
  | .ok _, .error _ => .isFalse (fun hh => Except.noConfusion hh)
  | .error _, .ok _ => .isFalse (fun hh => Except.noConfusion hh)

/-- The WiFi join-string payload `WIFI:T:<sec>;S:<ssid>;P:<pw>;H:false;`
(main.go:397). -/
def wifiPayload (security ssid password : Str) : Str :=
  str "WIFI:T:" ++ security ++ str ";S:" ++ ssid ++ str ";P:" ++ password ++
    str ";H:false;"

/-- Embeds `generateWiFiQR` (main.go:382-399): split the argument on `':'`;
fewer than two fields is an error; otherwise fields 0 and 1 are SSID and
password, and the security type is `"WPA"` unless a third field is present,
in which case that field upper-cased. -/
def generateWiFiQR (wifiConfig : Str) : Except GoError Str :=
  match splitOnChar ':' wifiConfig with
  | [] => .error .invalidInput
  | [_] => .error .invalidInput
  | ssid :: password :: rest =>
    let security : Str :=
      match rest with
      | [] => str "WPA"
      | s :: _ => s.map Char.toUpper
    .ok (wifiPayload security ssid password)

/-- Splits a string at the first occurrence of `c` (the separator removed),
or `none` when `c` does not occur. -/
def splitAtFirst (c : Char) : Str → Option (Str × Str)
  | [] => none
  | x :: xs =>
    if x = c then some ([], xs)
    else
      match splitAtFirst c xs with
      | none => none
      | some (a, b) => some (x :: a, b)

/-- Characters admissible in a URL scheme after the leading letter. -/
def isSchemeChar (c : Char) : Bool :=
  c.isAlphanum || c = '+' || c = '-' || c = '.'

/-- Modelled from the spec: `isValidURL` (main.go:212-219) delegates to the
the Go standard library function `url.ParseRequestURI` and then requires a non-empty
scheme and a non-empty host; the spec (§4.1) describes this as "a parse
yielding a non-empty scheme and a non-empty host".  The parse is modelled
structurally: a non-empty scheme (a letter followed by scheme characters)
before the first `':'`, then `"//"`, then a non-empty host running up to
the next `'/'`, `'?'` or `'#'`. -/
def isValidURL (u : Str) : Bool :=
  match splitAtFirst ':' u with
  | none => false
  | some (scheme, rest) =>
    (match scheme with
     | [] => false
     | c :: cs => c.isAlpha && cs.all isSchemeChar) &&
    (str "//").isPrefixOf rest &&
    !((rest.drop 2).takeWhile (fun c => c ≠ '/' && c ≠ '?' && c ≠ '#')).isEmpty

/-- The guard of the URL branch of `getInputContent` (main.go:174):
`strings.HasPrefix(url, "http://") || strings.HasPrefix(url, "https://")`. -/
def hasWebScheme (u : Str) : Bool :=
  (str "http://").isPrefixOf u || (str "https://").isPrefixOf u

/-- Embeds the URL branch of `getInputContent` (main.go:172-181): only
strings beginning with `http://` or `https://` are validated; every other
string is returned unchanged. -/
def urlHandler (u : Str) : Except GoError Str :=
  if hasWebScheme u then
    if isValidURL u then .ok u else .error .invalidInput
  else .ok u

/-- The four error-correction levels of the library (§3 of the spec). -/
inductive RecoveryLevel where
  | low
  | medium
  | high
  | highest
deriving DecidableEq

/-- Embeds the quality `switch` of `main` (main.go:74-87): lower-case the
flag value, match the named levels, and fall back to `Medium`. -/
def parseQuality (quality : Str) : RecoveryLevel :=
  let lq := quality.map Char.toLower
  if lq = str "low" ∨ lq = str "l" then .low
  else if lq = str "medium" ∨ lq = str "m" then .medium
  else if lq = str "high" ∨ lq = str "h" then .high
  else if lq = str "highest" ∨ lq = str "hh" then .highest
  else .medium

/-- ASCII whitespace, as trimmed by Go `strings.TrimSpace` (the payloads
here are ASCII, so the Unicode cases are not modelled). -/
def isSpaceChar (c : Char) : Bool :=
  c.toNat = 32 || (9 ≤ c.toNat && c.toNat ≤ 13)

/-- Embeds `strings.TrimSpace`: drop whitespace from both ends. -/
def trimSpace (l : Str) : Str :=
  ((l.dropWhile isSpaceChar).reverse.dropWhile isSpaceChar).reverse

/-- The file system and the PNG writer, which the program reaches through
`os.Open`, `bufio.Scanner` and the QR library: `fileLines name` is the list
of lines of the file `name` (or an open/read error), `fileBytes name` its
raw bytes, and `writeQR n content` tells whether generating and writing
the QR file for line `n` of a batch (content `content`) succeeds. -/
structure Env where
  fileLines : Str → Except GoError (List Str)
  fileBytes : Str → Except GoError (List Nat)
  writeQR : Nat → Str → Bool

/-- Embeds `readFromFile` (main.go:190-210): concatenate every line followed
by a newline, then trim surrounding whitespace. -/
def readFromFile (env : Env) (filename : Str) : Except GoError Str :=
  match env.fileLines filename with
  | .error e => .error e
  | .ok lines => .ok (trimSpace (lines.map (fun l => l ++ ['\n'])).flatten)

/-- The standard base64 alphabet (Go `encoding/base64.StdEncoding`). -/
def base64Alphabet : Str :=
  str "ABCDEFGHIJKLMNOPQRSTUVWXYZabcdefghijklmnopqrstuvwxyz0123456789+/"

/-- One character of the base64 alphabet. -/
def base64Char (n : Nat) : Char := base64Alphabet.getD n 'A'

/-- Embeds Go `base64.StdEncoding.EncodeToString`: emit groups of three
bytes as four alphabet characters, padding the tail with `'='`. -/
def base64Encode : List Nat → Str
  | [] => []
  | [b0] =>
    let v := b0 % 256 * 65536
    [base64Char (v / 262144), base64Char (v / 4096 % 64), '=', '=']
  | [b0, b1] =>
    let v := b0 % 256 * 65536 + b1 % 256 * 256
    [base64Char (v / 262144), base64Char (v / 4096 % 64),
     base64Char (v / 64 % 64), '=']
  | b0 :: b1 :: b2 :: bs =>
    let v := b0 % 256 * 65536 + b1 % 256 * 256 + b2 % 256
    base64Char (v / 262144) :: base64Char (v / 4096 % 64) ::
      base64Char (v / 64 % 64) :: base64Char (v % 64) :: base64Encode bs

/-- Embeds `filepath.Ext`: the suffix of the last path element starting at
its final dot, empty when that element has no dot. -/
def extOf (path : Str) : Str :=
  let base := (splitOnChar '/' path).getLastD []
  let revBase := base.reverse
  if ('.' ∈ revBase : Bool) then '.' :: (revBase.takeWhile (· ≠ '.')).reverse
  else []

/-- Embeds `encodeImageToBase64` (main.go:348-380): read the file bytes,
pick a MIME type from the lower-cased extension (default `image/png`), and
return a base64 data URI. -/
def encodeImageToBase64 (env : Env) (imagePath : Str) : Except GoError Str :=
  match env.fileBytes imagePath with
  | .error e => .error e
  | .ok data =>
    let ext := (extOf imagePath).map Char.toLower
    let mimeType :=
      if ext = str ".jpg" ∨ ext = str ".jpeg" then str "image/jpeg"
      else if ext = str ".png" then str "image/png"
      else if ext = str ".gif" then str "image/gif"
      else if ext = str ".webp" then str "image/webp"
      else str "image/png"
    .ok (str "data:" ++ mimeType ++ str ";base64," ++ base64Encode data)

/-- One observable event of the batch loop: the `✅ Generated` or
`❌ Error processing line N` report for a processed line. -/
inductive BatchEvent where
  | success (lineNum : Nat)
  | failure (lineNum : Nat)
deriving DecidableEq

/-- The skip condition of the batch loop (main.go:413): blank lines and
`#` comments are passed over without consuming a line number. -/
def skipLine (t : Str) : Bool :=
  t.isEmpty || (str "#").isPrefixOf t

/-- Embeds the loop body of `processBatchFile` (main.go:411-426): trim each
line, skip blanks and comments, and for every remaining line emit one
success or failure event (per the write oracle) and advance the line
counter; returns the events and the final counter value. -/
def processBatchLoop (write : Nat → Str → Bool) :
    List Str → Nat → List BatchEvent × Nat
  | [], n => ([], n)
  | l :: ls, n =>
    let t := trimSpace l
    if skipLine t then processBatchLoop write ls n
    else
      let ev := if write n t then BatchEvent.success n else BatchEvent.failure n
      let (evs, m) := processBatchLoop write ls (n + 1)
      (ev :: evs, m)

/-- The summary string returned by `processBatchFile` (main.go:428). -/
def batchMsg (count : Nat) : Str :=
  str "Batch processing completed. Generated " ++ (Nat.repr count).toList ++
    str " QR codes."

/-- Embeds `processBatchFile` (main.go:401-429): open the file (an open
failure is an error), run the loop over its lines, and return the summary
string — always successfully — together with the per-line events. -/
def processBatchFile (env : Env) (filename : Str) :
    Except GoError Str × List BatchEvent :=
  match env.fileLines filename with
  | .error e => (.error e, [])
  | .ok lines =>
    let (evs, m) := processBatchLoop env.writeQR lines 1
    (.ok (batchMsg (m - 1)), evs)

/-- The lines of a batch file that the loop actually processes: trimmed,
non-blank, non-comment. -/
def effectiveLines : List Str → List Str
  | [] => []
  | l :: ls =>
    let t := trimSpace l
    if skipLine t then effectiveLines ls else t :: effectiveLines ls

/-- The parsed command-line flags (the `Config` struct, main.go:25-40). -/
structure Config where
  text : Str
  url : Str
  file : Str
  image : Str
  wifi : Str
  vcard : Str
  output : Str
  size : Int
  quiet : Bool
  help : Bool
  version : Bool
  quality : Str
  batch : Bool
  preview : Bool

/-- Which input source an invocation ends up using. -/
inductive InputKind where
  | batchIn
  | vcardIn
  | wifiIn
  | imageIn
  | fileIn
  | urlIn
  | textIn
  | noInput
deriving DecidableEq

/-- Embeds `getInputContent` (main.go:150-188): the fixed priority chain
batch → vcard → wifi → image → file → url → text. -/
def getInputContent (env : Env) (c : Config) : Except GoError Str :=
  if c.batch ∧ c.file ≠ [] then (processBatchFile env c.file).1
  else if c.vcard ≠ [] then readFromFile env c.vcard
  else if c.wifi ≠ [] then generateWiFiQR c.wifi
  else if c.image ≠ [] then encodeImageToBase64 env c.image
  else if c.file ≠ [] then readFromFile env c.file
  else if c.url ≠ [] then urlHandler c.url
  else if c.text ≠ [] then .ok c.text
  else .ok []

/-- The input source selected by the priority chain of `getInputContent`. -/
def selectedInput (c : Config) : InputKind :=
  if c.batch ∧ c.file ≠ [] then .batchIn
  else if c.vcard ≠ [] then .vcardIn
  else if c.wifi ≠ [] then .wifiIn
  else if c.image ≠ [] then .imageIn
  else if c.file ≠ [] then .fileIn
  else if c.url ≠ [] then .urlIn
  else if c.text ≠ [] then .textIn
  else .noInput

/-- The handler each input kind dispatches to; each one reads only the
configuration field of its own kind. -/
def dispatchInput (env : Env) (c : Config) : InputKind → Except GoError Str
  | .batchIn => (processBatchFile env c.file).1
  | .vcardIn => readFromFile env c.vcard
  | .wifiIn => generateWiFiQR c.wifi
  | .imageIn => encodeImageToBase64 env c.image
  | .fileIn => readFromFile env c.file
  | .urlIn => urlHandler c.url
  | .textIn => .ok c.text
  | .noInput => .ok []

/-- What `main` does after input acquisition: either the error it exits
with, and whether control ever reached the QR-generation phase (the
`showASCIIPreview`/`generateQRCode` calls at main.go:90-98). -/
structure MainOutcome where
  error : Option GoError
  reachedGeneration : Bool
deriving DecidableEq

/-- Embeds the validation sequence of `main` (main.go:62-98): empty content
is rejected first (main.go:62-66), then a size outside 1..2048 (main.go:69-72),
and only then is the QR code generated and written (outcome `gen`). -/
def runMain (content : Str) (size : Int) (gen : Except GoError Unit) :
    MainOutcome :=
  if content = [] then ⟨some .invalidInput, false⟩
  else if size ≤ 0 ∨ 2048 < size then ⟨some .sizeOutOfRange, false⟩
  else
    match gen with
    | .ok _ => ⟨none, true⟩
    | .error e => ⟨some e, true⟩

/-- Modelled from the spec: the rasterizer (§4.6) lives in the external QR
library behind `qr.WriteFile` (main.go:248) and is not part of this
sources of this repository.  Per the spec it computes the module pixel size as
`floor(size / (matrixSide + 2·quietZoneModules))`. -/
def modulePixelSize (size matrixSide quietZoneModules : Nat) : Nat :=
  size / (matrixSide + 2 * quietZoneModules)

/-- Modelled from the spec: the rasterizer fails with `SizeTooSmall` when
the computed module pixel size is 0, and otherwise renders each module at
that pixel size. -/
def rasterizeCheck (size matrixSide quietZoneModules : Nat) :
    Except GoError Nat :=
  if modulePixelSize size matrixSide quietZoneModules = 0 then
    .error .sizeTooSmall
  else .ok (modulePixelSize size matrixSide quietZoneModules)

/-- A QR symbol matrix: rows of dark/light modules. -/
abbrev Matrix := List (List Bool)

/-- Modelled from the spec: the eight standard data-mask formulas of §4.5
("a pattern-specific XOR rule" indexed by a mask pattern 0–7). -/
def maskBit (m : Fin 8) (i j : Nat) : Bool :=
  match m.val with
  | 0 => (i + j) % 2 = 0
  | 1 => i % 2 = 0
  | 2 => j % 3 = 0
  | 3 => (i + j) % 3 = 0
  | 4 => (i / 2 + j / 3) % 2 = 0
  | 5 => i * j % 2 + i * j % 3 = 0
  | 6 => (i * j % 2 + i * j % 3) % 2 = 0
  | _ => ((i + j) % 2 + i * j % 3) % 2 = 0

/-- Modelled from the spec: the function-module regions of a version-1
(21×21) symbol — the three finder/separator/format corners and the timing
row and column — which masking must leave untouched (§4.5). -/
def isFunctionModule (i j : Nat) : Bool :=
  (i < 9 && j < 9) || (i < 9 && 13 ≤ j) || (13 ≤ i && j < 9) || i = 6 || j = 6

/-- Modelled from the spec: applying mask `m` XORs the mask formula into
every data module and leaves function modules unchanged. -/
def applyMask (m : Fin 8) (base : Matrix) : Matrix :=
  base.enum.map (fun (i, row) =>
    row.enum.map (fun (j, b) =>
      if isFunctionModule i j then b else xor b (maskBit m i j)))

/-- Runs of equal consecutive modules in one row or column, given the
current module colour and run length. -/
def runsAux (c : Bool) (n : Nat) : List Bool → List Nat
  | [] => [n]
  | x :: xs => if x = c then runsAux c (n + 1) xs else n :: runsAux x 1 xs

/-- The lengths of the maximal runs of a line. -/
def lineRuns : List Bool → List Nat
  | [] => []
  | x :: xs => runsAux x 1 xs

/-- Modelled from the spec: penalty term 1 — every run of 5 or more equal
modules scores `3 + (length − 5)`, over all rows and columns. -/
def penaltyRuns (mat : Matrix) : Nat :=
  let linePen := fun l =>
    ((lineRuns l).map (fun n => if 5 ≤ n then 3 + (n - 5) else 0)).sum
  (mat.map linePen).sum + (mat.transpose.map linePen).sum

/-- 2×2 same-colour blocks across one pair of adjacent rows. -/
def blocksTwo : List Bool → List Bool → Nat
  | a :: a' :: as, b :: b' :: bs =>
    (if a = a' && a = b && a = b' then 3 else 0) + blocksTwo (a' :: as) (b' :: bs)
  | _, _ => 0

/-- Modelled from the spec: penalty term 2 — each 2×2 block of one colour
scores 3. -/
def penaltyBlocks (mat : Matrix) : Nat :=
  ((mat.zip mat.tail).map (fun p => blocksTwo p.1 p.2)).sum

/-- The finder-like sequence 1011101 followed by 0000. -/
def finderSeq : List Bool :=
  [true, false, true, true, true, false, true, false, false, false, false]

/-- Occurrences of `p` as a contiguous subsequence. -/
def countOcc (p : List Bool) : List Bool → Nat
  | [] => 0
  | x :: xs => (if p.isPrefixOf (x :: xs) then 1 else 0) + countOcc p xs

/-- Modelled from the spec: penalty term 3 — each finder-pattern
look-alike (in either orientation) in a row or column scores 40. -/
def penaltyFinder (mat : Matrix) : Nat :=
  let linePen := fun l => 40 * (countOcc finderSeq l + countOcc finderSeq.reverse l)
  (mat.map linePen).sum + (mat.transpose.map linePen).sum

/-- Modelled from the spec: penalty term 4 — 10 points per 5% that the
dark-module percentage deviates from 50%. -/
def penaltyDark (mat : Matrix) : Nat :=
  let total := (mat.map List.length).sum
  if total = 0 then 0
  else
    let dark := (mat.map (fun r => r.count true)).sum
    let percent := 100 * dark / total
    let dev := if 50 ≤ percent then percent - 50 else 50 - percent
    10 * (dev / 5)

/-- Modelled from the spec: the 4-term structural penalty of §4.5. -/
def penaltyScore (mat : Matrix) : Nat :=
  penaltyRuns mat + penaltyBlocks mat + penaltyFinder mat + penaltyDark mat

/-- The two-bit error-correction-level indicator of the format
information. -/
def levelBits : RecoveryLevel → List Bool
  | .low => [false, true]
  | .medium => [false, false]
  | .high => [true, true]
  | .highest => [true, false]

/-- The eight bits of one byte, most significant first ("MSB first per
byte", §4.5). -/
def byteBits (n : Nat) : List Bool :=
  (List.range 8).map (fun k => (n >>> (7 - k)) % 2 = 1)

/-- Dark/light of a finder pattern at local 7×7 coordinates. -/
def finderDark (i j : Nat) : Bool :=
  i = 0 || i = 6 || j = 0 || j = 6 ||
    (2 ≤ i && i ≤ 4 && 2 ≤ j && j ≤ 4)

/-- Modelled from the spec: the fixed values of the version-1 function
modules — the three finder patterns and the alternating timing row and
column; separators and reserved format cells are light. -/
def functionValue (i j : Nat) : Bool :=
  if i < 7 && j < 7 then finderDark i j
  else if i < 7 && 14 ≤ j then finderDark i (j - 14)
  else if 14 ≤ i && j < 7 then finderDark (i - 14) j
  else if i = 6 then j % 2 = 0
  else if j = 6 then i % 2 = 0
  else false

/-- Modelled from the spec: the deterministic stages upstream of mask
selection (§4.2–§4.5: classification, codeword packing, error correction,
placement), which the program reaches only through the external QR
library.  They are condensed to a deterministic function of the payload
and level: the level-indicator bits followed by the payload bytes MSB
first, cycled across the data modules of a version-1 21×21 grid, with the
function modules at their fixed values.  The exact module values are
immaterial to the mask-selection property below; what the model preserves
is that the pre-mask matrix is a pure function of `(payload, level)`. -/
def encodeBase (payload : Str) (level : RecoveryLevel) : Matrix :=
  let bits := levelBits level ++ (payload.map (fun c => byteBits c.toNat)).flatten
  (List.range 21).map (fun i =>
    (List.range 21).map (fun j =>
      if isFunctionModule i j then functionValue i j
      else bits.getD ((i * 21 + j) % bits.length) false))

/-- Modelled from the spec: the mask the builder keeps — minimum penalty
score, and (as in the ascending scan of the library over masks 0–7) strictly
better than every earlier mask, i.e. the first mask attaining the
minimum. -/
def IsSelectedMask (base : Matrix) (m : Fin 8) : Prop :=
  (∀ m' : Fin 8, penaltyScore (applyMask m base) ≤ penaltyScore (applyMask m' base)) ∧
  (∀ m' : Fin 8, m' < m →
    penaltyScore (applyMask m base) < penaltyScore (applyMask m' base))

instance (base : Matrix) (m : Fin 8) : Decidable (IsSelectedMask base m) := by
  unfold IsSelectedMask; infer_instance

/-- Modelled from the spec: `encode(P, L)` may output matrix `M` when `M`
is a selected-mask application to the deterministic pre-mask matrix of
`(P, L)`.  Stated as a relation so that determinism is a theorem about
mask selection rather than a reflexivity triviality. -/
def EncodeOutcome (payload : Str) (level : RecoveryLevel) (result : Matrix) :
    Prop :=
  ∃ m : Fin 8, IsSelectedMask (encodeBase payload level) m ∧
    result = applyMask m (encodeBase payload level)

/-- The quality names and their levels, exactly as the claim reads them:
low/l, medium/m, high/h, highest/hh, compared case-insensitively. -/
def qualityTable : List (Str × RecoveryLevel) :=
  [(str "low", .low), (str "l", .low),
   (str "medium", .medium), (str "m", .medium),
   (str "high", .high), (str "h", .high),
   (str "highest", .highest), (str "hh", .highest)]

/-- First-match lookup in a name table, defaulting to `Medium`. -/
def lookupLevel : List (Str × RecoveryLevel) → Str → RecoveryLevel
  | [], _ => .medium
  | (name, lvl) :: rest, lq => if lq = name then lvl else lookupLevel rest lq

/-- The quality parser as the claim describes it: a case-insensitive
lookup of the name table, with every unlisted string silently mapped to
`Medium`.  Stated separately from `parseQuality` (which is translated from
main.go:74-87) so that their agreement is a theorem. -/
def parseQualitySpec (q : Str) : RecoveryLevel :=
  lookupLevel qualityTable (q.map Char.toLower)

/-- A concrete environment used to witness the batch-processing theorem:
one comment line, one blank line, one line whose QR write succeeds and one
whose write fails. -/
def batchEnvDemo : Env where
  fileLines := fun _ => .ok [str "# comment", str "  ", str "https://a.com", str "::bad::"]
  fileBytes := fun _ => .error .ioError
  writeQR := fun n _ => n == 1

/-- The pre-mask matrix `encodeBase (str "A") .medium`, spelled out so the
mask-selection witness can evaluate penalties against a literal. -/
def baseMatrixA : Matrix :=
  [[true, true, true, true, true, true, true, false, false, true, false, false, false, false, true, true, true, true, true, true, true],
   [true, false, false, false, false, false, true, false, false, false, false, false, true, false, true, false, false, false, false, false, true],
   [true, false, true, true, true, false, true, false, false, false, false, true, false, false, true, false, true, true, true, false, true],
   [true, false, true, true, true, false, true, false, false, false, true, false, false, false, true, false, true, true, true, false, true],
   [true, false, true, true, true, false, true, false, false, true, false, false, false, false, true, false, true, true, true, false, true],
   [true, false, false, false, false, false, true, false, false, false, false, false, false, false, true, false, false, false, false, false, true],
   [true, true, true, true, true, true, true, false, true, false, true, false, true, false, true, true, true, true, true, true, true],
   [false, false, false, false, false, false, false, false, false, false, false, false, true, false, false, false, false, false, false, false, false],
   [false, false, false, false, false, false, true, false, false, false, false, true, false, false, false, false, false, false, false, false, false],
   [true, false, false, false, true, false, false, false, false, false, true, false, false, false, true, false, false, false, false, false, true],
   [false, false, false, true, false, false, true, false, false, true, false, false, false, true, false, false, false, false, false, true, false],
   [false, false, true, false, false, false, false, false, true, false, false, false, true, false, false, false, false, false, true, false, false],
   [false, true, false, false, false, false, true, true, false, false, false, true, false, false, false, false, false, true, false, false, false],
   [false, false, false, false, false, false, false, false, false, false, true, false, false, false, false, false, true, false, false, false, true],
   [true, true, true, true, true, true, true, false, false, true, false, false, false, false, false, true, false, false, false, true, false],
   [true, false, false, false, false, false, true, false, false, false, false, false, false, false, true, false, false, false, true, false, false],
   [true, false, true, true, true, false, true, false, false, false, false, false, false, true, false, false, false, true, false, false, false],
   [true, false, true, true, true, false, true, false, false, false, false, false, true, false, false, false, true, false, false, false, false],
   [true, false, true, true, true, false, true, false, false, false, false, true, false, false, false, true, false, false, false, false, false],
   [true, false, false, false, false, false, true, false, false, false, true, false, false, false, true, false, false, false, false, false, true],
   [true, true, true, true, true, true, true, false, false, true, false, false, false, true, false, false, false, false, false, true, false]]

/-- The masked matrix `applyMask 0 baseMatrixA`, spelled out as a literal. -/
def maskedMatrixA0 : Matrix :=
  [[true, true, true, true, true, true, true, false, false, true, true, false, true, false, true, true, true, true, true, true, true],
   [true, false, false, false, false, false, true, false, false, true, false, true, true, false, true, false, false, false, false, false, true],
   [true, false, true, true, true, false, true, false, false, false, true, true, true, false, true, false, true, true, true, false, true],
   [true, false, true, true, true, false, true, false, false, true, true, true, false, false, true, false, true, true, true, false, true],
   [true, false, true, true, true, false, true, false, false, true, true, false, true, false, true, false, true, true, true, false, true],
   [true, false, false, false, false, false, true, false, false, true, false, true, false, false, true, false, false, false, false, false, true],
   [true, true, true, true, true, true, true, false, true, false, true, false, true, false, true, true, true, true, true, true, true],
   [false, false, false, false, false, false, false, false, false, true, false, true, true, false, false, false, false, false, false, false, false],
   [false, false, false, false, false, false, true, false, false, false, true, true, true, false, false, false, false, false, false, false, false],
   [true, true, false, true, true, true, false, true, false, true, true, true, false, true, true, true, false, true, false, true, true],
   [true, false, true, true, true, false, true, false, true, true, true, false, true, true, true, false, true, false, true, true, true],
   [false, true, true, true, false, true, false, true, true, true, false, true, true, true, false, true, false, true, true, true, false],
   [true, true, true, false, true, false, true, true, true, false, true, true, true, false, true, false, true, true, true, false, true],
   [false, false, false, false, false, false, false, false, false, true, true, true, false, true, false, true, true, true, false, true, true],
   [true, true, true, true, true, true, true, false, false, true, true, false, true, false, true, true, true, false, true, true, true],
   [true, false, false, false, false, false, true, false, false, true, false, true, false, true, true, true, false, true, true, true, false],
   [true, false, true, true, true, false, true, false, false, false, true, false, true, true, true, false, true, true, true, false, true],
   [true, false, true, true, true, false, true, false, false, true, false, true, true, true, false, true, true, true, false, true, false],
   [true, false, true, true, true, false, true, false, false, false, true, true, true, false, true, true, true, false, true, false, true],
   [true, false, false, false, false, false, true, false, false, true, true, true, false, true, true, true, false, true, false, true, true],
   [true, true, true, true, true, true, true, false, false, true, true, false, true, true, true, false, true, false, true, true, true]]

/-- The masked matrix `applyMask 1 baseMatrixA`, spelled out as a literal. -/
def maskedMatrixA1 : Matrix :=
  [[true, true, true, true, true, true, true, false, false, false, true, true, true, false, true, true, true, true, true, true, true],
   [true, false, false, false, false, false, true, false, false, false, false, false, true, false, true, false, false, false, false, false, true],
   [true, false, true, true, true, false, true, false, false, true, true, false, true, false, true, false, true, true, true, false, true],
   [true, false, true, true, true, false, true, false, false, false, true, false, false, false, true, false, true, true, true, false, true],
   [true, false, true, true, true, false, true, false, false, false, true, true, true, false, true, false, true, true, true, false, true],
   [true, false, false, false, false, false, true, false, false, false, false, false, false, false, true, false, false, false, false, false, true],
   [true, true, true, true, true, true, true, false, true, false, true, false, true, false, true, true, true, true, true, true, true],
   [false, false, false, false, false, false, false, false, false, false, false, false, true, false, false, false, false, false, false, false, false],
   [false, false, false, false, false, false, true, false, false, true, true, false, true, false, false, false, false, false, false, false, false],
   [true, false, false, false, true, false, false, false, false, false, true, false, false, false, true, false, false, false, false, false, true],
   [true, true, true, false, true, true, true, true, true, false, true, true, true, false, true, true, true, true, true, false, true],
   [false, false, true, false, false, false, false, false, true, false, false, false, true, false, false, false, false, false, true, false, false],
   [true, false, true, true, true, true, true, false, true, true, true, false, true, true, true, true, true, false, true, true, true],
   [false, false, false, false, false, false, false, false, false, false, true, false, false, false, false, false, true, false, false, false, true],
   [true, true, true, true, true, true, true, false, false, false, true, true, true, true, true, false, true, true, true, false, true],
   [true, false, false, false, false, false, true, false, false, false, false, false, false, false, true, false, false, false, true, false, false],
   [true, false, true, true, true, false, true, false, false, true, true, true, true, false, true, true, true, false, true, true, true],
   [true, false, true, true, true, false, true, false, false, false, false, false, true, false, false, false, true, false, false, false, false],
   [true, false, true, true, true, false, true, false, false, true, true, false, true, true, true, false, true, true, true, true, true],
   [true, false, false, false, false, false, true, false, false, false, true, false, false, false, true, false, false, false, false, false, true],
   [true, true, true, true, true, true, true, false, false, false, true, true, true, false, true, true, true, true, true, false, true]]

/-- The masked matrix `applyMask 2 baseMatrixA`, spelled out as a literal. -/
def maskedMatrixA2 : Matrix :=
  [[true, true, true, true, true, true, true, false, false, false, false, false, true, false, true, true, true, true, true, true, true],
   [true, false, false, false, false, false, true, false, false, true, false, false, false, false, true, false, false, false, false, false, true],
   [true, false, true, true, true, false, true, false, false, true, false, true, true, false, true, false, true, true, true, false, true],
   [true, false, true, true, true, false, true, false, false, true, true, false, true, false, true, false, true, true, true, false, true],
   [true, false, true, true, true, false, true, false, false, false, false, false, true, false, true, false, true, true, true, false, true],
   [true, false, false, false, false, false, true, false, false, true, false, false, true, false, true, false, false, false, false, false, true],
   [true, true, true, true, true, true, true, false, true, false, true, false, true, false, true, true, true, true, true, true, true],
   [false, false, false, false, false, false, false, false, false, true, false, false, false, false, false, false, false, false, false, false, false],
   [false, false, false, false, false, false, true, false, false, true, false, true, true, false, false, false, false, false, false, false, false],
   [false, false, false, true, true, false, false, false, false, true, true, false, true, false, true, true, false, false, true, false, true],
   [true, false, false, false, false, false, true, false, false, false, false, false, true, true, false, true, false, false, true, true, false],
   [true, false, true, true, false, false, false, false, true, true, false, false, false, false, false, true, false, false, false, false, false],
   [true, true, false, true, false, false, true, true, false, true, false, true, true, false, false, true, false, true, true, false, false],
   [false, false, false, false, false, false, false, false, false, true, true, false, true, false, false, true, true, false, true, false, true],
   [true, true, true, true, true, true, true, false, false, false, false, false, true, false, false, false, false, false, true, true, false],
   [true, false, false, false, false, false, true, false, false, true, false, false, true, false, true, true, false, false, false, false, false],
   [true, false, true, true, true, false, true, false, false, true, false, false, true, true, false, true, false, true, true, false, false],
   [true, false, true, true, true, false, true, false, false, true, false, false, false, false, false, true, true, false, true, false, false],
   [true, false, true, true, true, false, true, false, false, true, false, true, true, false, false, false, false, false, true, false, false],
   [true, false, false, false, false, false, true, false, false, true, true, false, true, false, true, true, false, false, true, false, true],
   [true, true, true, true, true, true, true, false, false, false, false, false, true, true, false, true, false, false, true, true, false]]

/-- The masked matrix `applyMask 3 baseMatrixA`, spelled out as a literal. -/
def maskedMatrixA3 : Matrix :=
  [[true, true, true, true, true, true, true, false, false, false, false, false, true, false, true, true, true, true, true, true, true],
   [true, false, false, false, false, false, true, false, false, false, false, true, true, false, true, false, false, false, false, false, true],
   [true, false, true, true, true, false, true, false, false, false, true, true, false, false, true, false, true, true, true, false, true],
   [true, false, true, true, true, false, true, false, false, true, true, false, true, false, true, false, true, true, true, false, true],
   [true, false, true, true, true, false, true, false, false, true, false, true, false, false, true, false, true, true, true, false, true],
   [true, false, false, false, false, false, true, false, false, false, true, false, false, false, true, false, false, false, false, false, true],
   [true, true, true, true, true, true, true, false, true, false, true, false, true, false, true, true, true, true, true, true, true],
   [false, false, false, false, false, false, false, false, false, false, false, true, true, false, false, false, false, false, false, false, false],
   [false, false, false, false, false, false, true, false, false, false, true, true, false, false, false, false, false, false, false, false, false],
   [false, false, false, true, true, false, false, false, false, true, true, false, true, false, true, true, false, false, true, false, true],
   [false, false, true, true, false, true, true, false, true, true, false, true, false, true, true, false, false, true, false, true, true],
   [false, true, true, false, true, false, false, true, true, false, true, false, true, true, false, false, true, false, true, true, false],
   [true, true, false, true, false, false, true, true, false, true, false, true, true, false, false, true, false, true, true, false, false],
   [false, false, false, false, false, false, false, false, false, false, true, true, false, false, true, false, true, true, false, false, false],
   [true, true, true, true, true, true, true, false, false, true, true, false, false, true, false, true, true, false, false, false, false],
   [true, false, false, false, false, false, true, false, false, true, false, false, true, false, true, true, false, false, false, false, false],
   [true, false, true, true, true, false, true, false, false, false, false, true, false, true, true, false, false, false, false, false, true],
   [true, false, true, true, true, false, true, false, false, false, true, false, true, true, false, false, false, false, false, true, false],
   [true, false, true, true, true, false, true, false, false, true, false, true, true, false, false, false, false, false, true, false, false],
   [true, false, false, false, false, false, true, false, false, false, true, true, false, false, false, false, false, true, false, false, false],
   [true, true, true, true, true, true, true, false, false, true, true, false, false, false, false, false, true, false, false, false, false]]

/-- The masked matrix `applyMask 4 baseMatrixA`, spelled out as a literal. -/
def maskedMatrixA4 : Matrix :=
  [[true, true, true, true, true, true, true, false, false, true, false, false, true, false, true, true, true, true, true, true, true],
   [true, false, false, false, false, false, true, false, false, false, false, false, false, false, true, false, false, false, false, false, true],
   [true, false, true, true, true, false, true, false, false, true, true, false, false, false, true, false, true, true, true, false, true],
   [true, false, true, true, true, false, true, false, false, true, false, true, false, false, true, false, true, true, true, false, true],
   [true, false, true, true, true, false, true, false, false, true, false, false, true, false, true, false, true, true, true, false, true],
   [true, false, false, false, false, false, true, false, false, false, false, false, true, false, true, false, false, false, false, false, true],
   [true, true, true, true, true, true, true, false, true, false, true, false, true, false, true, true, true, true, true, true, true],
   [false, false, false, false, false, false, false, false, false, true, true, true, true, false, false, false, false, false, false, false, false],
   [false, false, false, false, false, false, true, false, false, false, false, true, true, false, false, false, false, false, false, false, false],
   [false, true, true, false, true, false, false, true, true, false, true, false, true, true, false, false, false, false, true, true, false],
   [false, false, false, false, true, true, true, false, false, false, true, true, false, true, false, true, true, true, false, true, false],
   [false, false, true, true, true, true, false, false, true, true, true, true, true, false, false, true, true, true, true, false, false],
   [true, false, true, false, false, false, true, false, true, false, false, true, true, true, true, false, false, true, true, true, true],
   [false, false, false, false, false, false, false, false, false, false, true, false, true, true, true, false, true, false, true, true, false],
   [true, true, true, true, true, true, true, false, false, false, true, true, false, false, false, false, true, true, false, true, false],
   [true, false, false, false, false, false, true, false, false, true, true, true, false, false, true, true, true, true, true, false, false],
   [true, false, true, true, true, false, true, false, false, false, false, false, true, false, true, false, false, true, true, true, true],
   [true, false, true, true, true, false, true, false, false, false, false, false, false, true, true, false, true, false, true, true, true],
   [true, false, true, true, true, false, true, false, false, true, true, false, false, false, false, false, true, true, false, false, false],
   [true, false, false, false, false, false, true, false, false, true, false, true, false, false, true, true, true, true, false, false, true],
   [true, true, true, true, true, true, true, false, false, true, false, false, true, false, true, false, false, false, true, false, true]]

/-- The masked matrix `applyMask 5 baseMatrixA`, spelled out as a literal. -/
def maskedMatrixA5 : Matrix :=
  [[true, true, true, true, true, true, true, false, false, false, true, true, true, false, true, true, true, true, true, true, true],
   [true, false, false, false, false, false, true, false, false, false, false, false, false, false, true, false, false, false, false, false, true],
   [true, false, true, true, true, false, true, false, false, true, false, true, true, false, true, false, true, true, true, false, true],
   [true, false, true, true, true, false, true, false, false, false, false, false, true, false, true, false, true, true, true, false, true],
   [true, false, true, true, true, false, true, false, false, false, false, false, true, false, true, false, true, true, true, false, true],
   [true, false, false, false, false, false, true, false, false, false, false, false, true, false, true, false, false, false, false, false, true],
   [true, true, true, true, true, true, true, false, true, false, true, false, true, false, true, true, true, true, true, true, true],
   [false, false, false, false, false, false, false, false, false, false, false, false, false, false, false, false, false, false, false, false, false],
   [false, false, false, false, false, false, true, false, false, true, false, true, true, false, false, false, false, false, false, false, false],
   [false, false, true, false, false, false, false, false, true, false, false, false, true, false, false, false, true, false, true, false, false],
   [true, false, false, false, false, false, true, false, false, false, false, false, true, true, false, true, false, false, true, true, false],
   [true, false, true, false, false, false, false, false, true, false, false, false, false, false, false, false, false, false, false, false, false],
   [true, false, true, true, true, true, true, false, true, true, true, false, true, true, true, true, true, false, true, true, true],
   [false, false, false, false, false, false, false, false, false, false, true, false, true, false, false, false, true, false, true, false, true],
   [true, true, true, true, true, true, true, false, false, false, false, false, true, false, false, false, false, false, true, true, false],
   [true, false, false, false, false, false, true, false, false, false, true, false, true, false, false, false, true, false, false, false, true],
   [true, false, true, true, true, false, true, false, false, true, false, false, true, true, false, true, false, true, true, false, false],
   [true, false, true, true, true, false, true, false, false, false, false, false, false, false, false, false, true, false, true, false, false],
   [true, false, true, true, true, false, true, false, false, true, true, false, true, true, true, false, true, true, true, true, true],
   [true, false, false, false, false, false, true, false, false, false, true, false, true, false, true, false, false, false, true, false, true],
   [true, true, true, true, true, true, true, false, false, false, false, false, true, true, false, true, false, false, true, true, false]]

/-- The masked matrix `applyMask 6 baseMatrixA`, spelled out as a literal. -/
def maskedMatrixA6 : Matrix :=
  [[true, true, true, true, true, true, true, false, false, false, true, true, true, false, true, true, true, true, true, true, true],
   [true, false, false, false, false, false, true, false, false, false, false, false, false, false, true, false, false, false, false, false, true],
   [true, false, true, true, true, false, true, false, false, true, true, true, true, false, true, false, true, true, true, false, true],
   [true, false, true, true, true, false, true, false, false, false, false, false, true, false, true, false, true, true, true, false, true],
   [true, false, true, true, true, false, true, false, false, false, false, true, true, false, true, false, true, true, true, false, true],
   [true, false, false, false, false, false, true, false, false, false, true, true, true, false, true, false, false, false, false, false, true],
   [true, true, true, true, true, true, true, false, true, false, true, false, true, false, true, true, true, true, true, true, true],
   [false, false, false, false, false, false, false, false, false, false, false, false, false, false, false, false, false, false, false, false, false],
   [false, false, false, false, false, false, true, false, false, true, true, true, true, false, false, false, false, false, false, false, false],
   [false, false, true, false, false, false, false, false, true, false, false, false, true, false, false, false, true, false, true, false, false],
   [true, false, true, false, false, true, true, false, true, false, false, true, true, true, true, true, false, true, true, true, true],
   [true, false, true, false, true, true, false, false, true, false, true, true, false, false, false, false, true, true, false, false, false],
   [true, false, true, true, true, true, true, false, true, true, true, false, true, true, true, true, true, false, true, true, true],
   [false, false, false, false, false, false, false, false, false, false, true, false, true, true, true, false, true, false, true, true, false],
   [true, true, true, true, true, true, true, false, false, false, true, false, true, true, false, false, true, false, true, false, false],
   [true, false, false, false, false, false, true, false, false, false, true, false, true, false, false, false, true, false, false, false, true],
   [true, false, true, true, true, false, true, false, false, true, false, true, true, true, true, true, false, false, true, false, true],
   [true, false, true, true, true, false, true, false, false, false, true, true, false, false, false, false, false, true, true, false, false],
   [true, false, true, true, true, false, true, false, false, true, true, false, true, true, true, false, true, true, true, true, true],
   [true, false, false, false, false, false, true, false, false, false, true, false, true, true, false, false, false, false, true, true, false],
   [true, true, true, true, true, true, true, false, false, false, true, false, true, false, false, true, true, false, true, false, false]]

/-- The masked matrix `applyMask 7 baseMatrixA`, spelled out as a literal. -/
def maskedMatrixA7 : Matrix :=
  [[true, true, true, true, true, true, true, false, false, true, true, false, true, false, true, true, true, true, true, true, true],
   [true, false, false, false, false, false, true, false, false, true, true, true, true, false, true, false, false, false, false, false, true],
   [true, false, true, true, true, false, true, false, false, false, true, false, true, false, true, false, true, true, true, false, true],
   [true, false, true, true, true, false, true, false, false, true, true, true, false, false, true, false, true, true, true, false, true],
   [true, false, true, true, true, false, true, false, false, true, false, false, true, false, true, false, true, true, true, false, true],
   [true, false, false, false, false, false, true, false, false, true, false, false, false, false, true, false, false, false, false, false, true],
   [true, true, true, true, true, true, true, false, true, false, true, false, true, false, true, true, true, true, true, true, true],
   [false, false, false, false, false, false, false, false, false, true, true, true, true, false, false, false, false, false, false, false, false],
   [false, false, false, false, false, false, true, false, false, false, true, false, true, false, false, false, false, false, false, false, false],
   [true, true, false, true, true, true, false, true, false, true, true, true, false, true, true, true, false, true, false, true, true],
   [true, true, true, true, false, false, true, true, true, true, false, false, true, false, true, false, false, false, true, false, true],
   [false, true, false, true, false, false, false, true, false, true, false, false, true, true, true, true, false, false, true, true, true],
   [true, true, true, false, true, false, true, true, true, false, true, true, true, false, true, false, true, true, true, false, true],
   [false, false, false, false, false, false, false, false, false, true, false, true, false, false, false, true, false, true, false, false, true],
   [true, true, true, true, true, true, true, false, false, true, true, true, true, false, false, true, true, true, true, true, false],
   [true, false, false, false, false, false, true, false, false, true, false, true, false, true, true, true, false, true, true, true, false],
   [true, false, true, true, true, false, true, false, false, false, false, false, true, false, true, false, false, true, true, true, true],
   [true, false, true, true, true, false, true, false, false, true, false, false, true, true, true, true, true, false, false, true, true],
   [true, false, true, true, true, false, true, false, false, false, true, true, true, false, true, true, true, false, true, false, true],
   [true, false, false, false, false, false, true, false, false, true, false, true, false, false, true, true, true, true, false, false, true],
   [true, true, true, true, true, true, true, false, false, true, true, true, true, true, false, false, true, true, true, true, false]]

/-! ### Helper lemmas -/

theorem splitOnChar_ne_nil (c : Char) (l : Str) : splitOnChar c l ≠ [] := by
  cases l with
  | nil => simp [splitOnChar]
  | cons x xs =>
    simp only [splitOnChar]
    cases splitOnChar c xs <;> split <;> split <;> simp

theorem splitOnChar_length (c : Char) (l : Str) :
    (splitOnChar c l).length = l.count c + 1 := by
  induction l with
  | nil => simp [splitOnChar]
  | cons x xs ih =>
    simp only [splitOnChar]
    cases h : splitOnChar c xs with
    | nil => exact absurd h (splitOnChar_ne_nil c xs)
    | cons r rs =>
      rw [h] at ih
      by_cases hx : x = c
      · subst hx; simp_all [List.count_cons]
      · simp_all [List.count_cons, hx]

theorem ite_or_eq {α : Type} (p q : Prop) [Decidable p] [Decidable q]
    (a b : α) :
    (if p ∨ q then a else b) = if p then a else if q then a else b := by
  by_cases hp : p <;> by_cases hq : q <;> simp [hp, hq]

/-! ### Claim theorems -/

/-- Claim C1: a WiFi tuple that splits on `':'` into `[SSID, PASSWORD]`
normalizes to `WIFI:T:WPA;S:<SSID>;P:<PASSWORD>;H:false;`, and one that
splits into `[SSID, PASSWORD, SECURITY]` normalizes to the same string
with the upper-cased third field as the security type. -/
theorem wifi_normalization (w ssid password security : Str) :
    (splitOnChar ':' w = [ssid, password] →
      generateWiFiQR w = .ok (wifiPayload (str "WPA") ssid password)) ∧
    (splitOnChar ':' w = [ssid, password, security] →
      generateWiFiQR w =
        .ok (wifiPayload (security.map Char.toUpper) ssid password)) := by
  constructor <;> intro h <;> simp [generateWiFiQR, h]

/-- Witness for C1: the tuple `"MyWiFi:pass123:WPA"` normalizes to exactly
`"WIFI:T:WPA;S:MyWiFi;P:pass123;H:false;"`. -/
theorem wifi_normalization_witness :
    generateWiFiQR (str "MyWiFi:pass123:WPA") =
      .ok (str "WIFI:T:WPA;S:MyWiFi;P:pass123;H:false;") := by
  have h := (wifi_normalization (str "MyWiFi:pass123:WPA") (str "MyWiFi")
      (str "pass123") (str "WPA")).2 (by decide)
  exact h.trans (by decide)

/-- Claim C2 counterexample: at the input `"notaurl"` the normalizer
returns the string unchanged even though the string fails scheme+host
structural validation, so "fails exactly when validation fails" is false
as stated. -/
theorem url_claim_counterexample :
    ¬ ((urlHandler (str "notaurl") = .error .invalidInput) ↔
        isValidURL (str "notaurl") = false) := by decide

/-- Claim C2 (amended): the URL normalizer returns the string itself or
fails with `InvalidInput`, and it fails exactly when the string starts
with `http://` or `https://` AND fails scheme+host structural validation;
strings without those prefixes are returned as-is, unvalidated. -/
theorem url_normalizer_amended (u : Str) :
    (urlHandler u = .ok u ∨ urlHandler u = .error .invalidInput) ∧
    (urlHandler u = .error .invalidInput ↔
      (hasWebScheme u = true ∧ isValidURL u = false)) := by
  unfold urlHandler
  cases hw : hasWebScheme u <;> cases hv : isValidURL u <;> simp [hw, hv]

/-- Claim C3: WiFi normalization fails with `InvalidInput` precisely on
inputs with fewer than two colon-separated fields, i.e. exactly on the
inputs containing no `':'` at all; no payload string is produced there. -/
theorem wifi_missing_colon (w : Str) :
    generateWiFiQR w = .error .invalidInput ↔ ':' ∉ w := by
  have hlen := splitOnChar_length ':' w
  rcases hsplit : splitOnChar ':' w with _ | ⟨a, _ | ⟨b, rest⟩⟩
  · exact absurd hsplit (splitOnChar_ne_nil ':' w)
  · rw [hsplit] at hlen
    have hcount : w.count ':' = 0 := by
      simp only [List.length_cons, List.length_nil] at hlen; omega
    constructor
    · intro _; exact List.count_eq_zero.mp hcount
    · intro _; simp [generateWiFiQR, hsplit]
  · constructor
    · intro herr; simp [generateWiFiQR, hsplit] at herr
    · intro hmem
      exfalso
      have hcount : w.count ':' = 0 := List.count_eq_zero.mpr hmem
      rw [hsplit] at hlen
      simp only [List.length_cons, hcount] at hlen
      omega

/-- Claim C4: rasterization computes the module pixel size as
`floor(size / (matrixSide + 2·quietZoneModules))`, fails with
`SizeTooSmall` exactly when that quantity is 0, and in particular fails
for a 21-module matrix with a 4-modules-per-side (8 modules total) quiet
zone at pixel size 1. -/
theorem raster_size_too_small (size matrixSide quietZoneModules : Nat) :
    (rasterizeCheck size matrixSide quietZoneModules = .error .sizeTooSmall ↔
      size / (matrixSide + 2 * quietZoneModules) = 0) ∧
    (rasterizeCheck size matrixSide quietZoneModules =
        .ok (size / (matrixSide + 2 * quietZoneModules)) ↔
      size / (matrixSide + 2 * quietZoneModules) ≠ 0) ∧
    rasterizeCheck 1 21 4 = .error .sizeTooSmall := by
  refine ⟨?_, ?_, by decide⟩ <;>
    · unfold rasterizeCheck modulePixelSize
      split <;> simp_all

/-- Claim C5: with non-empty content, `main` reaches the QR-generation
phase exactly for sizes between 1 and 2048 inclusive; a size of 0 or
below, or above 2048, is rejected with an error before any QR code is
generated or file written. -/
theorem size_policy (content : Str) (size : Int) (gen : Except GoError Unit)
    (hc : content ≠ []) :
    ((runMain content size gen).reachedGeneration = true ↔
      1 ≤ size ∧ size ≤ 2048) ∧
    (size ≤ 0 ∨ 2048 < size →
      runMain content size gen = ⟨some .sizeOutOfRange, false⟩) := by
  unfold runMain
  rw [if_neg hc]
  by_cases hs : size ≤ 0 ∨ 2048 < size
  · rw [if_pos hs]
    exact ⟨by simp; omega, fun _ => rfl⟩
  · rw [if_neg hs]
    refine ⟨?_, fun h => absurd h hs⟩
    cases gen <;> simp <;> omega

/-- Witness for C5: size 5000 is rejected before generation, size 256 is
accepted. -/
theorem size_policy_witness :
    runMain (str "x") 5000 (.ok ()) = ⟨some .sizeOutOfRange, false⟩ ∧
    (runMain (str "x") 256 (.ok ())).reachedGeneration = true := by
  refine ⟨(size_policy (str "x") 5000 (.ok ()) (by decide)).2 (by omega), ?_⟩
  exact (size_policy (str "x") 256 (.ok ()) (by decide)).1.mpr (by omega)

/-- Claim C6: batch processing emits exactly one report event — success or
failure, per the write oracle — for every non-blank, non-comment line,
numbered in order; a failing line never removes the events of later lines, and
the batch call itself always returns the completion message successfully. -/
theorem batch_failure_continues (env : Env) (filename : Str)
    (lines : List Str) (h : env.fileLines filename = .ok lines) :
    (processBatchFile env filename).1 =
      .ok (batchMsg (effectiveLines lines).length) ∧
    (processBatchFile env filename).2 =
      (List.enumFrom 1 (effectiveLines lines)).map
        (fun p => if env.writeQR p.1 p.2 then BatchEvent.success p.1
                  else BatchEvent.failure p.1) := by
  have hloop : ∀ (write : Nat → Str → Bool) (ls : List Str) (n : Nat),
      processBatchLoop write ls n =
        ((List.enumFrom n (effectiveLines ls)).map
          (fun p => if write p.1 p.2 then BatchEvent.success p.1
                    else BatchEvent.failure p.1),
         n + (effectiveLines ls).length) := by
    intro write ls
    induction ls with
    | nil => intro n; simp [processBatchLoop, effectiveLines]
    | cons l rest ih =>
      intro n
      by_cases hs : skipLine (trimSpace l)
      · simp [processBatchLoop, effectiveLines, hs, ih]
      · simp [processBatchLoop, effectiveLines, List.enumFrom, hs, ih (n + 1)]
        omega
  unfold processBatchFile
  rw [h]
  simp [hloop]

/-- Witness for C6: in a four-line file (comment, blank, one succeeding
line, one failing line), the failing line is reported and the loop
continues; the batch still returns its completion message. -/
theorem batch_failure_continues_witness :
    (processBatchFile batchEnvDemo (str "urls.txt")).1 = .ok (batchMsg 2) ∧
    (processBatchFile batchEnvDemo (str "urls.txt")).2 =
      [BatchEvent.success 1, BatchEvent.failure 2] := by
  have h := batch_failure_continues batchEnvDemo (str "urls.txt")
      [str "# comment", str "  ", str "https://a.com", str "::bad::"] rfl
  exact ⟨h.1.trans (by decide), h.2.trans (by decide)⟩

/-- Claim C7: an empty payload makes `main` fail with the invalid-input
error without ever reaching QR generation or file output. -/
theorem empty_payload_rejected (size : Int) (gen : Except GoError Unit) :
    runMain [] size gen = ⟨some .invalidInput, false⟩ := by
  simp [runMain]

/-- Claim C9: `getInputContent` uses exactly one input source, chosen by
the fixed priority chain batch → vcard → wifi → image → file → url → text,
and dispatches to the handler of that source alone (each handler reads
only its own configuration field). -/
theorem input_priority (env : Env) (c : Config) :
    getInputContent env c = dispatchInput env c (selectedInput c) := by
  unfold getInputContent selectedInput dispatchInput
  split_ifs <;> rfl

/-- Claim C10: quality parsing agrees with a case-insensitive lookup of
the table low/l, medium/m, high/h, highest/hh that silently defaults to
`Medium` for every other string, and it depends only on the lower-cased
flag value. -/
theorem quality_parsing (q q' : Str) :
    parseQuality q = parseQualitySpec q ∧
    (q.map Char.toLower = q'.map Char.toLower →
      parseQuality q = parseQuality q') := by
  constructor
  · unfold parseQuality parseQualitySpec qualityTable
    simp only [lookupLevel, ite_or_eq]
  · intro h
    unfold parseQuality
    rw [h]

/-- Witness for C10: `"HIGH"` parses as `High` both ways, mixed case does
not matter, and the unlisted string `"weird"` parses as `Medium`. -/
theorem quality_parsing_witness :
    parseQuality (str "HIGH") = parseQualitySpec (str "HIGH") ∧
    parseQuality (str "HIGH") = parseQuality (str "hIgH") ∧
    parseQuality (str "weird") = .medium := by
  refine ⟨(quality_parsing (str "HIGH") (str "hIgH")).1,
    (quality_parsing (str "HIGH") (str "hIgH")).2 (by decide), ?_⟩
  exact ((quality_parsing (str "weird") (str "weird")).1).trans (by decide)

set_option maxRecDepth 100000 in
theorem encodeBaseA_eq : encodeBase (str "A") .medium = baseMatrixA := by rfl

set_option maxRecDepth 100000 in
theorem applyMaskA0 : applyMask (⟨0, by omega⟩ : Fin 8) baseMatrixA = maskedMatrixA0 := by rfl

set_option maxRecDepth 100000 in
theorem applyMaskA1 : applyMask (⟨1, by omega⟩ : Fin 8) baseMatrixA = maskedMatrixA1 := by rfl

set_option maxRecDepth 100000 in
theorem applyMaskA2 : applyMask (⟨2, by omega⟩ : Fin 8) baseMatrixA = maskedMatrixA2 := by rfl

set_option maxRecDepth 100000 in
theorem applyMaskA3 : applyMask (⟨3, by omega⟩ : Fin 8) baseMatrixA = maskedMatrixA3 := by rfl

set_option maxRecDepth 100000 in
theorem applyMaskA4 : applyMask (⟨4, by omega⟩ : Fin 8) baseMatrixA = maskedMatrixA4 := by rfl

set_option maxRecDepth 100000 in
theorem applyMaskA5 : applyMask (⟨5, by omega⟩ : Fin 8) baseMatrixA = maskedMatrixA5 := by rfl

set_option maxRecDepth 100000 in
theorem applyMaskA6 : applyMask (⟨6, by omega⟩ : Fin 8) baseMatrixA = maskedMatrixA6 := by rfl

set_option maxRecDepth 100000 in
theorem applyMaskA7 : applyMask (⟨7, by omega⟩ : Fin 8) baseMatrixA = maskedMatrixA7 := by rfl

set_option maxRecDepth 100000 in
theorem penaltyA0 : penaltyScore maskedMatrixA0 = 382 := by rfl

set_option maxRecDepth 100000 in
theorem penaltyA1 : penaltyScore maskedMatrixA1 = 463 := by rfl

set_option maxRecDepth 100000 in
theorem penaltyA2 : penaltyScore maskedMatrixA2 = 656 := by rfl

set_option maxRecDepth 100000 in
theorem penaltyA3 : penaltyScore maskedMatrixA3 = 515 := by rfl

set_option maxRecDepth 100000 in
theorem penaltyA4 : penaltyScore maskedMatrixA4 = 573 := by rfl

set_option maxRecDepth 100000 in
theorem penaltyA5 : penaltyScore maskedMatrixA5 = 749 := by rfl

set_option maxRecDepth 100000 in
theorem penaltyA6 : penaltyScore maskedMatrixA6 = 654 := by rfl

set_option maxRecDepth 100000 in
theorem penaltyA7 : penaltyScore maskedMatrixA7 = 425 := by rfl

theorem penaltyMaskA0 :
    penaltyScore (applyMask (⟨0, by omega⟩ : Fin 8) baseMatrixA) = 382 := by
  rw [applyMaskA0]; exact penaltyA0

theorem penaltyMaskA1 :
    penaltyScore (applyMask (⟨1, by omega⟩ : Fin 8) baseMatrixA) = 463 := by
  rw [applyMaskA1]; exact penaltyA1

theorem penaltyMaskA2 :
    penaltyScore (applyMask (⟨2, by omega⟩ : Fin 8) baseMatrixA) = 656 := by
  rw [applyMaskA2]; exact penaltyA2

theorem penaltyMaskA3 :
    penaltyScore (applyMask (⟨3, by omega⟩ : Fin 8) baseMatrixA) = 515 := by
  rw [applyMaskA3]; exact penaltyA3

theorem penaltyMaskA4 :
    penaltyScore (applyMask (⟨4, by omega⟩ : Fin 8) baseMatrixA) = 573 := by
  rw [applyMaskA4]; exact penaltyA4

theorem penaltyMaskA5 :
    penaltyScore (applyMask (⟨5, by omega⟩ : Fin 8) baseMatrixA) = 749 := by
  rw [applyMaskA5]; exact penaltyA5

theorem penaltyMaskA6 :
    penaltyScore (applyMask (⟨6, by omega⟩ : Fin 8) baseMatrixA) = 654 := by
  rw [applyMaskA6]; exact penaltyA6

theorem penaltyMaskA7 :
    penaltyScore (applyMask (⟨7, by omega⟩ : Fin 8) baseMatrixA) = 425 := by
  rw [applyMaskA7]; exact penaltyA7

theorem selectedMaskA : IsSelectedMask (encodeBase (str "A") .medium) 0 := by
  rw [encodeBaseA_eq]
  constructor
  · intro m'
    fin_cases m'
    · exact Nat.le_refl _
    · exact le_of_le_of_eq (le_of_eq_of_le penaltyMaskA0 (by omega)) penaltyMaskA1.symm
    · exact le_of_le_of_eq (le_of_eq_of_le penaltyMaskA0 (by omega)) penaltyMaskA2.symm
    · exact le_of_le_of_eq (le_of_eq_of_le penaltyMaskA0 (by omega)) penaltyMaskA3.symm
    · exact le_of_le_of_eq (le_of_eq_of_le penaltyMaskA0 (by omega)) penaltyMaskA4.symm
    · exact le_of_le_of_eq (le_of_eq_of_le penaltyMaskA0 (by omega)) penaltyMaskA5.symm
    · exact le_of_le_of_eq (le_of_eq_of_le penaltyMaskA0 (by omega)) penaltyMaskA6.symm
    · exact le_of_le_of_eq (le_of_eq_of_le penaltyMaskA0 (by omega)) penaltyMaskA7.symm
  · intro m' hm'
    simp [Fin.lt_def] at hm'

/-- Claim C8: the encode pipeline is deterministic — any two matrices
produced for the same payload and error-correction level are identical,
because the mask-selection rule (minimum penalty, earliest mask on ties)
admits exactly one mask. -/
theorem encode_deterministic (payload : Str) (level : RecoveryLevel)
    (m1 m2 : Matrix) (h1 : EncodeOutcome payload level m1)
    (h2 : EncodeOutcome payload level m2) : m1 = m2 := by
  obtain ⟨a, ⟨hamin, hafirst⟩, ha⟩ := h1
  obtain ⟨b, ⟨hbmin, hbfirst⟩, hb⟩ := h2
  subst ha; subst hb
  rcases lt_trichotomy a b with hab | hab | hab
  · exact absurd (hbfirst a hab) (not_lt.mpr (hamin b))
  · rw [hab]
  · exact absurd (hafirst b hab) (not_lt.mpr (hbmin a))

/-- Witness for C8: for payload `"A"` at level `Medium`, mask 0 is the
selected mask, and the determinism theorem applies to the resulting
encode outcome. -/
theorem encode_deterministic_witness :
    EncodeOutcome (str "A") .medium
      (applyMask 0 (encodeBase (str "A") .medium)) ∧
    applyMask 0 (encodeBase (str "A") .medium) =
      applyMask 0 (encodeBase (str "A") .medium) := by
  have h : EncodeOutcome (str "A") .medium
      (applyMask 0 (encodeBase (str "A") .medium)) :=
    ⟨0, selectedMaskA, rfl⟩
  exact ⟨h, encode_deterministic (str "A") .medium _ _ h h⟩

end QRGen
